import Mathlib

/- Verification of the scrape-orchestration core (scraper.py): anonymity
circuit rotation, per-request fingerprint randomization, stealth session
construction, navigation with error containment, and output size bounding.

The two external collaborators (the anonymization daemon's control port,
reached through stem, and the playwright browser-automation engine) are
modelled by an environment record giving the outcome of each external call
a single fetch performs, in the order the pipeline consults them.  Each
operation returns its result together with a trace of the externally
visible events it performed, so call-order and resource-release claims can
be stated about the trace. -/

namespace Scraper

/-- Outcome of one external call that returns nothing: success, or a raised
error carrying its message. -/
abbrev Outcome := Except String Unit

/-- Environment for one `scrape_url` call: the outcome of every external
call the pipeline can perform, in the order it consults them.
`fromPort`, `authenticate`, `signalNewnym` model the stem controller calls;
`launch`, `newContext`, `newPage`, `addInitScript` the playwright session
construction; `goto`, `waitSettle`, `pageContent` the navigation phase; and
`browserClose` the final `browser.close()`. -/
structure Env where
  fromPort : Outcome
  authenticate : Outcome
  signalNewnym : Outcome
  launch : Outcome
  newContext : Outcome
  newPage : Outcome
  addInitScript : Outcome
  goto : Outcome
  waitSettle : Outcome
  pageContent : Except String String
  browserClose : Outcome

/-- Externally visible events of one fetch, recorded in order. `connOpen`
and `connClose` are the control-port connection lifecycle; `closeCall` is
the explicit `browser.close()` call; `stopClose` records a still-running
browser being terminated by the playwright scope teardown (the library
stops the driver when the `async with async_playwright()` scope exits,
which closes browsers that are still running). -/
inductive Event where
  | connOpen : Event
  | connClose : Event
  | launch : Event
  | newContext : Event
  | newPage : Event
  | addInitScript : String → Event
  | gotoCall : String → Event
  | settle : Event
  | extract : Event
  | closeCall : Event
  | stopClose : Event
deriving DecidableEq, Repr

/-- rotate_ip (scraper.py lines 6-9): a scoped control-port acquisition
(`with Controller.from_port(port=9051) as controller`), then authenticate,
then the NEWNYM signal.  If `from_port` itself raises, no connection was
opened; once the connection is open, the with-block closes it on every
exit path, including when authenticate or signal raises, and the error
propagates. -/
def rotate_ip (env : Env) : Outcome × List Event :=
  match env.fromPort with
  | Except.error e => (Except.error e, [])
  | Except.ok _ =>
    match env.authenticate with
    | Except.error e => (Except.error e, [Event.connOpen, Event.connClose])
    | Except.ok _ =>
      match env.signalNewnym with
      | Except.error e => (Except.error e, [Event.connOpen, Event.connClose])
      | Except.ok _ => (Except.ok (), [Event.connOpen, Event.connClose])

/-- The fixed user-agent candidate list (scraper.py lines 12-16). -/
def userAgents : List String :=
  ["Mozilla/5.0 (Windows NT 10.0; Win64; x64) AppleWebKit/537.36 Chrome/114.0.0.0 Safari/537.36",
   "Mozilla/5.0 (Macintosh; Intel Mac OS X 10_15_7) AppleWebKit/537.36 Chrome/113.0.0.0 Safari/537.36"]

/-- get_random_user_agent (scraper.py lines 11-16): `random.choice` over the
fixed list, modelled by an arbitrary index reduced mod the list length. -/
def get_random_user_agent (i : Nat) : String :=
  userAgents.get ⟨i % userAgents.length, Nat.mod_lt i (by decide)⟩

/-- A viewport, as passed to `browser.new_context`. -/
structure Viewport where
  width : Nat
  height : Nat
deriving DecidableEq, Repr

/-- The fixed width candidates (scraper.py line 19). -/
def widths : List Nat := [1280, 1366, 1440, 1920]

/-- The fixed height candidates (scraper.py line 20). -/
def heights : List Nat := [720, 768, 900, 1080]

/-- get_random_viewport (scraper.py lines 18-24): width and height chosen
independently by `random.choice`, modelled by independent indices. -/
def get_random_viewport (wi hi : Nat) : Viewport :=
  { width := widths.get ⟨wi % widths.length, Nat.mod_lt wi (by decide)⟩,
    height := heights.get ⟨hi % heights.length, Nat.mod_lt hi (by decide)⟩ }

/-- The proxy configuration dict of scrape_url line 49. -/
structure Proxy where
  server : String
deriving DecidableEq, Repr

/-- The fixed local SOCKS endpoint (scraper.py line 49). -/
def proxy : Proxy := { server := "socks5://127.0.0.1:9050" }

/-- The anti-fingerprinting init script (scraper.py lines 39-44), with the
JS braces and single quotes written as character escapes. -/
def antiFingerprintScript : String :=
  "Object.defineProperty(navigator, \x27webdriver\x27, \x7b get: () => undefined \x7d);\n" ++
  "window.navigator.chrome = \x7b runtime: \x7b\x7d \x7d;\n" ++
  "Object.defineProperty(navigator, \x27languages\x27, \x7b get: () => [\x27en-US\x27, \x27en\x27] \x7d);\n" ++
  "Object.defineProperty(navigator, \x27plugins\x27, \x7b get: () => [1,2,3,4,5] \x7d);"

/-- The Session returned by stealth_context: the configuration of the
created browsing context and the init scripts installed on its page. -/
structure Session where
  proxyServer : String
  userAgent : String
  viewport : Viewport
  locale : String
  javaScriptEnabled : Bool
  initScripts : List String
deriving DecidableEq, Repr

/-- stealth_context (scraper.py lines 26-45): launch the headless engine,
create a context with proxy, user agent, viewport, locale "en-US" and
scripting enabled, open one page, install the anti-fingerprinting init
script, and return the (browser, page) pair.  A failure at any step
propagates; no step of this function closes the browser. -/
def stealth_context (env : Env) (p : Proxy) (user_agent : String) (viewport : Viewport) :
    Except String Session × List Event :=
  match env.launch with
  | Except.error e => (Except.error e, [])
  | Except.ok _ =>
    match env.newContext with
    | Except.error e => (Except.error e, [Event.launch])
    | Except.ok _ =>
      match env.newPage with
      | Except.error e => (Except.error e, [Event.launch, Event.newContext])
      | Except.ok _ =>
        match env.addInitScript with
        | Except.error e =>
            (Except.error e, [Event.launch, Event.newContext, Event.newPage])
        | Except.ok _ =>
            (Except.ok { proxyServer := p.server, userAgent := user_agent,
                         viewport := viewport, locale := "en-US",
                         javaScriptEnabled := true,
                         initScripts := [antiFingerprintScript] },
             [Event.launch, Event.newContext, Event.newPage,
              Event.addInitScript antiFingerprintScript])

/-- Python slicing `content[:2000]` (scraper.py line 65): the first 2000
characters. -/
def truncate2000 (s : String) : String := String.mk (s.data.take 2000)

/-- The try/except body of scrape_url (lines 56-61): `page.goto` with a 60s
timeout, the 3s settle wait, then `page.content()`; any exception raised by
these three calls is caught and replaced by the string "Error: <e>". -/
def navPhase (env : Env) (url : String) : String × List Event :=
  match env.goto with
  | Except.error e => ("Error: " ++ e, [Event.gotoCall url])
  | Except.ok _ =>
    match env.waitSettle with
    | Except.error e => ("Error: " ++ e, [Event.gotoCall url, Event.settle])
    | Except.ok _ =>
      match env.pageContent with
      | Except.error e =>
          ("Error: " ++ e, [Event.gotoCall url, Event.settle, Event.extract])
      | Except.ok c => (c, [Event.gotoCall url, Event.settle, Event.extract])

/-- scrape_url (scraper.py lines 47-65): rotate the circuit, build the
fingerprint, open the stealth session inside the playwright scope, run the
navigation phase with its error containment, close the browser in the
finally block, and return the first 2000 characters of the content.  When
`stealth_context` raises after the engine launched, the error escapes the
playwright scope and the scope teardown terminates the still-running
browser (the `stopClose` event); when the session was created, the finally
block's `browser.close()` runs exactly once (`closeCall`), and a failure
of that close propagates after the body was handled.  The randomness of
`random.choice` is modelled by the three index arguments. -/
def scrape_url (env : Env) (uaIdx wIdx hIdx : Nat) (url : String) :
    Except String String × List Event :=
  match rotate_ip env with
  | (Except.error e, tr) => (Except.error e, tr)
  | (Except.ok _, tr0) =>
    let user_agent := get_random_user_agent uaIdx
    let viewport := get_random_viewport wIdx hIdx
    match stealth_context env proxy user_agent viewport with
    | (Except.error e, tr1) =>
        (Except.error e,
         tr0 ++ tr1 ++ (if Event.launch ∈ tr1 then [Event.stopClose] else []))
    | (Except.ok _, tr1) =>
        let res := navPhase env url
        match env.browserClose with
        | Except.error e =>
            (Except.error e, tr0 ++ tr1 ++ res.2 ++ [Event.closeCall])
        | Except.ok _ =>
            (Except.ok (truncate2000 res.1), tr0 ++ tr1 ++ res.2 ++ [Event.closeCall])

/-- All three control-port calls succeed. -/
def rotationOk (env : Env) : Prop :=
  env.fromPort = Except.ok () ∧ env.authenticate = Except.ok () ∧
  env.signalNewnym = Except.ok ()

/-- All four session-construction calls succeed. -/
def sessionOk (env : Env) : Prop :=
  env.launch = Except.ok () ∧ env.newContext = Except.ok () ∧
  env.newPage = Except.ok () ∧ env.addInitScript = Except.ok ()

/-- Events that close the browser engine instance: the explicit
`browser.close()` call, or the playwright scope teardown. -/
def isCloseEvent : Event → Bool
  | Event.closeCall => true
  | Event.stopClose => true
  | _ => false

/-- Whether a fetch result string carries the in-band error marker: its
first six characters are "Error:". -/
def hasErrorMark (s : String) : Bool :=
  match s.data with
  | 'E' :: 'r' :: 'r' :: 'o' :: 'r' :: ':' :: _ => true
  | _ => false

/-- Whether an external call outcome is a raised error. -/
def raises {α : Type} : Except String α → Bool
  | Except.error _ => true
  | Except.ok _ => false

/-- Environment in which every external call succeeds and the page serves
a small fixed document. -/
def envOk : Env :=
  { fromPort := Except.ok (), authenticate := Except.ok (),
    signalNewnym := Except.ok (), launch := Except.ok (),
    newContext := Except.ok (), newPage := Except.ok (),
    addInitScript := Except.ok (), goto := Except.ok (),
    waitSettle := Except.ok (),
    pageContent := Except.ok "<html>OK</html>", browserClose := Except.ok () }

/-- Like `envOk` but navigation times out. -/
def envGotoFail : Env := { envOk with goto := Except.error "Timeout 60000ms exceeded." }

/-- Like `envOk` but the control-port authentication is refused. -/
def envAuthFail : Env := { envOk with authenticate := Except.error "authentication refused" }

/-- Like `envOk` but context creation fails after the engine launched. -/
def envContextFail : Env := { envOk with newContext := Except.error "context creation failed" }

/-- Like `envOk` but content extraction raises (navigation itself
succeeded). -/
def envExtractFail : Env := { envOk with pageContent := Except.error "page crashed" }

/-- Like `envOk` but the page's serialized content is 2500 characters. -/
def envLongContent : Env :=
  { envOk with pageContent := Except.ok (String.mk (List.replicate 2500 'a')) }

/-- The explicit `browser.close()` call only. -/
def isExplicitClose : Event → Bool
  | Event.closeCall => true
  | _ => false

/-- Browser-engine launch events. -/
def isLaunch : Event → Bool
  | Event.launch => true
  | _ => false

/-- Init-script installation events. -/
def isInstallScript : Event → Bool
  | Event.addInitScript _ => true
  | _ => false

/-- The data of a string built from a list is that list. -/
lemma mk_data (l : List Char) : (String.mk l).data = l := rfl

/-- String append concatenates the character lists. -/
lemma append_data (a b : String) : (a ++ b).data = a.data ++ b.data := by
  cases a; cases b; rfl

/-- Truncation really bounds the character count by 2000. -/
lemma truncate2000_length_le (s : String) : (truncate2000 s).data.length ≤ 2000 := by
  unfold truncate2000
  rw [mk_data, List.length_take]
  exact Nat.min_le_left _ _

/-- Truncation is the identity on strings of at most 2000 characters. -/
lemma truncate2000_short (s : String) (h : s.data.length ≤ 2000) : truncate2000 s = s := by
  unfold truncate2000
  rw [List.take_of_length_le h]

/-- Truncating an error-marker string keeps the marker: the first seven
characters "Error: " survive the cut at 2000. -/
lemma truncate2000_errorMark (e : String) :
    hasErrorMark (truncate2000 ("Error: " ++ e)) = true := by
  have h7 : ("Error: " ++ e).data = ['E', 'r', 'r', 'o', 'r', ':', ' '] ++ e.data := by
    cases e; rfl
  have h : (truncate2000 ("Error: " ++ e)).data
      = ['E', 'r', 'r', 'o', 'r', ':', ' '] ++ e.data.take 1993 := by
    show ("Error: " ++ e).data.take 2000 = _
    rw [h7, List.take_append_eq_append_take]
    rfl
  unfold hasErrorMark
  rw [h]
  rfl

/-- The trace of rotate_ip is either empty (the connection was never
opened) or exactly an open followed by a close. -/
lemma rotate_ip_trace (env : Env) :
    (rotate_ip env).2 = [] ∨ (rotate_ip env).2 = [Event.connOpen, Event.connClose] := by
  unfold rotate_ip
  cases env.fromPort <;> cases env.authenticate <;> cases env.signalNewnym <;> simp

/-- When all three control-port calls succeed, rotate_ip succeeds with the
open/close trace. -/
lemma rotate_ip_ok (env : Env) (h : rotationOk env) :
    rotate_ip env = (Except.ok (), [Event.connOpen, Event.connClose]) := by
  obtain ⟨h1, h2, h3⟩ := h
  unfold rotate_ip
  rw [h1, h2, h3]

/-- When the four session-construction calls succeed, stealth_context
returns the fully configured session and the construction trace. -/
lemma stealth_context_ok (env : Env) (p : Proxy) (ua : String) (vp : Viewport)
    (h : sessionOk env) :
    stealth_context env p ua vp =
      (Except.ok { proxyServer := p.server, userAgent := ua, viewport := vp,
                   locale := "en-US", javaScriptEnabled := true,
                   initScripts := [antiFingerprintScript] },
       [Event.launch, Event.newContext, Event.newPage,
        Event.addInitScript antiFingerprintScript]) := by
  obtain ⟨h1, h2, h3, h4⟩ := h
  unfold stealth_context
  rw [h1, h2, h3, h4]

/-- Inversion: a successfully returned session can only be the fully
configured one, with the construction trace. -/
lemma stealth_ok_inv (env : Env) (p : Proxy) (ua : String) (vp : Viewport)
    (s : Session) (tr : List Event)
    (h : stealth_context env p ua vp = (Except.ok s, tr)) :
    s = { proxyServer := p.server, userAgent := ua, viewport := vp,
          locale := "en-US", javaScriptEnabled := true,
          initScripts := [antiFingerprintScript] } ∧
    tr = [Event.launch, Event.newContext, Event.newPage,
          Event.addInitScript antiFingerprintScript] := by
  cases hla : env.launch with
  | error e => simp [stealth_context, hla] at h
  | ok u1 =>
    cases u1
    cases hnc : env.newContext with
    | error e => simp [stealth_context, hla, hnc] at h
    | ok u2 =>
      cases u2
      cases hnp : env.newPage with
      | error e => simp [stealth_context, hla, hnc, hnp] at h
      | ok u3 =>
        cases u3
        cases hai : env.addInitScript with
        | error e => simp [stealth_context, hla, hnc, hnp, hai] at h
        | ok u4 =>
          cases u4
          rw [stealth_context_ok env p ua vp ⟨hla, hnc, hnp, hai⟩] at h
          rw [Prod.mk.injEq] at h
          obtain ⟨h1, h2⟩ := h
          injection h1 with h1
          exact ⟨h1.symm, h2.symm⟩

/-- Claim C1: every string scrape_url returns (rather than raising) has
length at most 2000 characters, on both the success path and the
navigation-error path. -/
theorem scrape_url_result_length_le (env : Env) (i wi hi : Nat) (url : String)
    (r : String) (h : (scrape_url env i wi hi url).1 = Except.ok r) :
    r.data.length ≤ 2000 := by
  rcases hrt : rotate_ip env with ⟨res, tr⟩
  cases res with
  | error e => simp [scrape_url, hrt] at h
  | ok u =>
    rcases hst : stealth_context env proxy (get_random_user_agent i)
        (get_random_viewport wi hi) with ⟨sres, tr1⟩
    cases sres with
    | error e => simp [scrape_url, hrt, hst] at h
    | ok s =>
      cases hbc : env.browserClose with
      | error e => simp [scrape_url, hrt, hst, hbc] at h
      | ok u2 =>
        simp [scrape_url, hrt, hst, hbc] at h
        rw [← h]
        exact truncate2000_length_le _

/-- Witness for C1 at a concrete all-success environment. -/
theorem scrape_url_result_length_le_witness :
    (scrape_url envOk 0 0 0 "http://x").1 = Except.ok "<html>OK</html>" ∧
    ("<html>OK</html>" : String).data.length ≤ 2000 :=
  ⟨rfl, scrape_url_result_length_le envOk 0 0 0 "http://x" "<html>OK</html>" rfl⟩

/-- Claim C2: when rotation and session creation succeed but navigation
raises, the error is contained: scrape_url returns (does not raise) the
string "Error: <description>" truncated to 2000 characters, which starts
with "Error:" and has length at most 2000. -/
theorem scrape_url_nav_error_marker (env : Env) (i wi hi : Nat) (url e : String)
    (hr : rotationOk env) (hs : sessionOk env)
    (hg : env.goto = Except.error e) (hc : env.browserClose = Except.ok ()) :
    (scrape_url env i wi hi url).1 = Except.ok (truncate2000 ("Error: " ++ e)) ∧
    hasErrorMark (truncate2000 ("Error: " ++ e)) = true ∧
    (truncate2000 ("Error: " ++ e)).data.length ≤ 2000 := by
  refine ⟨?_, truncate2000_errorMark e, truncate2000_length_le _⟩
  simp [scrape_url, rotate_ip_ok env hr,
        stealth_context_ok env proxy (get_random_user_agent i) (get_random_viewport wi hi) hs,
        navPhase, hg, hc]

/-- Witness for C2 at a concrete environment whose navigation times out. -/
theorem scrape_url_nav_error_marker_witness :
    (scrape_url envGotoFail 0 0 0 "http://x").1 =
      Except.ok (truncate2000 ("Error: " ++ "Timeout 60000ms exceeded.")) ∧
    hasErrorMark (truncate2000 ("Error: " ++ "Timeout 60000ms exceeded.")) = true ∧
    (truncate2000 ("Error: " ++ "Timeout 60000ms exceeded.")).data.length ≤ 2000 :=
  scrape_url_nav_error_marker envGotoFail 0 0 0 "http://x" "Timeout 60000ms exceeded."
    ⟨rfl, rfl, rfl⟩ ⟨rfl, rfl, rfl, rfl⟩ rfl rfl

/-- Claim C9: rotate_ip releases its control-port connection on every exit
path: in every environment the trace closes exactly as many connections as
it opens, at most one connection is opened, and the trace is either empty
(the connection could not be opened at all) or an open immediately
followed by a close. -/
theorem rotate_ip_conn_balanced (env : Env) :
    (rotate_ip env).2.count Event.connOpen = (rotate_ip env).2.count Event.connClose ∧
    (rotate_ip env).2.count Event.connOpen ≤ 1 ∧
    ((rotate_ip env).2 = [] ∨ (rotate_ip env).2 = [Event.connOpen, Event.connClose]) := by
  refine ⟨?_, ?_, rotate_ip_trace env⟩ <;>
    rcases rotate_ip_trace env with h | h <;> rw [h] <;> decide

/-- Claim C5: on the all-success path scrape_url returns exactly the first
2000 characters of the serialized content, and the content unchanged when
it is 2000 characters or shorter. -/
theorem scrape_url_success_truncation (env : Env) (i wi hi : Nat) (url c : String)
    (hr : rotationOk env) (hs : sessionOk env)
    (hg : env.goto = Except.ok ()) (hw : env.waitSettle = Except.ok ())
    (hp : env.pageContent = Except.ok c) (hc : env.browserClose = Except.ok ()) :
    (scrape_url env i wi hi url).1 = Except.ok (truncate2000 c) ∧
    (truncate2000 c).data = c.data.take 2000 ∧
    (c.data.length ≤ 2000 → truncate2000 c = c) := by
  refine ⟨?_, rfl, truncate2000_short c⟩
  simp [scrape_url, rotate_ip_ok env hr,
        stealth_context_ok env proxy (get_random_user_agent i) (get_random_viewport wi hi) hs,
        navPhase, hg, hw, hp, hc]

/-- Witness for C5: a short page comes back verbatim, a 2500-character
page comes back cut to its first 2000 characters. -/
theorem scrape_url_success_truncation_witness :
    (scrape_url envOk 0 0 0 "http://x").1 = Except.ok "<html>OK</html>" ∧
    (scrape_url envLongContent 0 0 0 "http://x").1 =
      Except.ok (String.mk (List.replicate 2000 'a')) := by
  constructor
  · have h := scrape_url_success_truncation envOk 0 0 0 "http://x" "<html>OK</html>"
      ⟨rfl, rfl, rfl⟩ ⟨rfl, rfl, rfl, rfl⟩ rfl rfl rfl rfl
    rw [h.1, h.2.2 (by decide)]
  · have h := scrape_url_success_truncation envLongContent 0 0 0 "http://x"
      (String.mk (List.replicate 2500 'a'))
      ⟨rfl, rfl, rfl⟩ ⟨rfl, rfl, rfl, rfl⟩ rfl rfl rfl rfl
    rw [h.1]
    show Except.ok (String.mk ((List.replicate 2500 'a').take 2000)) = _
    rw [List.take_replicate]
    norm_num

/-- Claim C3: circuit rotation runs strictly before session creation and
never after it: whenever the browser was launched, the trace starts with
the completed rotation (open then close of the control connection) and no
control-connection activity follows; and when rotation raises, scrape_url
propagates that very error and never launches the browser or creates any
context or page. -/
theorem rotate_before_session (env : Env) (i wi hi : Nat) (url : String) :
    (Event.launch ∈ (scrape_url env i wi hi url).2 →
      ∃ rest, (scrape_url env i wi hi url).2 =
          Event.connOpen :: Event.connClose :: rest ∧
        Event.connOpen ∉ rest ∧ Event.connClose ∉ rest) ∧
    (∀ e, (rotate_ip env).1 = Except.error e →
      (scrape_url env i wi hi url).1 = Except.error e ∧
      Event.launch ∉ (scrape_url env i wi hi url).2 ∧
      Event.newContext ∉ (scrape_url env i wi hi url).2 ∧
      Event.newPage ∉ (scrape_url env i wi hi url).2) := by
  rcases env with ⟨fp, au, sg, la, nc, np, ai, gt, ws, pc, bc⟩
  constructor
  · intro hmem
    cases fp with
    | error e0 => simp [scrape_url, rotate_ip] at hmem
    | ok u1 =>
      cases au with
      | error e0 => simp [scrape_url, rotate_ip] at hmem
      | ok u2 =>
        cases sg with
        | error e0 => simp [scrape_url, rotate_ip] at hmem
        | ok u3 =>
          cases la <;> cases nc <;> cases np <;> cases ai <;>
            cases gt <;> cases ws <;> cases pc <;> cases bc <;>
            exact ⟨_, rfl, by simp [navPhase], by simp [navPhase]⟩
  · intro e he
    cases fp with
    | error e0 =>
      simp [rotate_ip] at he
      subst he
      exact ⟨rfl, by simp [scrape_url, rotate_ip],
             by simp [scrape_url, rotate_ip], by simp [scrape_url, rotate_ip]⟩
    | ok u1 =>
      cases au with
      | error e0 =>
        simp [rotate_ip] at he
        subst he
        exact ⟨rfl, by simp [scrape_url, rotate_ip],
               by simp [scrape_url, rotate_ip], by simp [scrape_url, rotate_ip]⟩
      | ok u2 =>
        cases sg with
        | error e0 =>
          simp [rotate_ip] at he
          subst he
          exact ⟨rfl, by simp [scrape_url, rotate_ip],
                 by simp [scrape_url, rotate_ip], by simp [scrape_url, rotate_ip]⟩
        | ok u3 => simp [rotate_ip] at he

/-- Witness for C3: an environment whose control-port authentication is
refused propagates that error and performs no session creation. -/
theorem rotate_before_session_witness :
    (scrape_url envAuthFail 0 0 0 "http://x").1 = Except.error "authentication refused" ∧
    Event.launch ∉ (scrape_url envAuthFail 0 0 0 "http://x").2 ∧
    Event.newContext ∉ (scrape_url envAuthFail 0 0 0 "http://x").2 ∧
    Event.newPage ∉ (scrape_url envAuthFail 0 0 0 "http://x").2 :=
  (rotate_before_session envAuthFail 0 0 0 "http://x").2 "authentication refused" rfl

/-- Claim C4: whenever the session was successfully created, the browser
engine instance is closed exactly once before scrape_url returns or
raises, on every exit path (navigation, settle wait and extraction
failures included), and that close is the explicit finally-block
`browser.close()` call. -/
theorem browser_closed_exactly_once (env : Env) (i wi hi : Nat) (url : String)
    (hr : rotationOk env) (hs : sessionOk env) :
    (scrape_url env i wi hi url).2.countP isCloseEvent = 1 ∧
    (scrape_url env i wi hi url).2.countP isExplicitClose = 1 := by
  have hrot := rotate_ip_ok env hr
  have hst := stealth_context_ok env proxy (get_random_user_agent i)
    (get_random_viewport wi hi) hs
  cases hgt : env.goto <;> cases hws : env.waitSettle <;>
    cases hpc : env.pageContent <;> cases hbc : env.browserClose <;>
    constructor <;>
    simp [scrape_url, hrot, hst, navPhase, hgt, hws, hpc, hbc,
          isCloseEvent, isExplicitClose, List.countP_cons, List.countP_append]

/-- Witness for C4 at the all-success environment. -/
theorem browser_closed_exactly_once_witness :
    (scrape_url envOk 0 0 0 "http://x").2.countP isCloseEvent = 1 ∧
    (scrape_url envOk 0 0 0 "http://x").2.countP isExplicitClose = 1 :=
  browser_closed_exactly_once envOk 0 0 0 "http://x" ⟨rfl, rfl, rfl⟩ ⟨rfl, rfl, rfl, rfl⟩

/-- Claim C7: when the engine launches but session construction then
raises (context creation, page creation or init-script installation), the
failure propagates to the caller of scrape_url, no navigation is
attempted, and no launched engine instance remains open: the one launch
is matched by one close (performed by the playwright scope teardown, not
by an explicit `browser.close()` call, which never runs on this path). -/
theorem session_creation_failure_fatal (env : Env) (i wi hi : Nat) (url e : String)
    (hr : rotationOk env) (hl : env.launch = Except.ok ())
    (hf : (stealth_context env proxy (get_random_user_agent i)
            (get_random_viewport wi hi)).1 = Except.error e) :
    (scrape_url env i wi hi url).1 = Except.error e ∧
    (scrape_url env i wi hi url).2.countP isLaunch = 1 ∧
    (scrape_url env i wi hi url).2.countP isCloseEvent = 1 ∧
    (scrape_url env i wi hi url).2.countP isExplicitClose = 0 ∧
    (∀ u, Event.gotoCall u ∉ (scrape_url env i wi hi url).2) := by
  have hrot := rotate_ip_ok env hr
  cases hnc : env.newContext with
  | error e0 =>
    have hst : stealth_context env proxy (get_random_user_agent i)
        (get_random_viewport wi hi) = (Except.error e0, [Event.launch]) := by
      unfold stealth_context
      rw [hl, hnc]
    rw [hst] at hf
    simp at hf
    subst hf
    refine ⟨?_, ?_, ?_, ?_, ?_⟩ <;>
      simp [scrape_url, hrot, hst, isLaunch, isCloseEvent, isExplicitClose,
            List.countP_cons, List.countP_append]
  | ok u1 =>
    cases u1
    cases hnp : env.newPage with
    | error e0 =>
      have hst : stealth_context env proxy (get_random_user_agent i)
          (get_random_viewport wi hi) =
            (Except.error e0, [Event.launch, Event.newContext]) := by
        unfold stealth_context
        rw [hl, hnc, hnp]
      rw [hst] at hf
      simp at hf
      subst hf
      refine ⟨?_, ?_, ?_, ?_, ?_⟩ <;>
        simp [scrape_url, hrot, hst, isLaunch, isCloseEvent, isExplicitClose,
              List.countP_cons, List.countP_append]
    | ok u2 =>
      cases u2
      cases hai : env.addInitScript with
      | error e0 =>
        have hst : stealth_context env proxy (get_random_user_agent i)
            (get_random_viewport wi hi) =
              (Except.error e0, [Event.launch, Event.newContext, Event.newPage]) := by
          unfold stealth_context
          rw [hl, hnc, hnp, hai]
        rw [hst] at hf
        simp at hf
        subst hf
        refine ⟨?_, ?_, ?_, ?_, ?_⟩ <;>
          simp [scrape_url, hrot, hst, isLaunch, isCloseEvent, isExplicitClose,
                List.countP_cons, List.countP_append]
      | ok u3 =>
        cases u3
        rw [stealth_context_ok env proxy (get_random_user_agent i)
          (get_random_viewport wi hi) ⟨hl, hnc, hnp, hai⟩] at hf
        simp at hf

/-- Witness for C7 at an environment whose context creation fails. -/
theorem session_creation_failure_fatal_witness :
    (scrape_url envContextFail 0 0 0 "http://x").1 =
      Except.error "context creation failed" ∧
    (scrape_url envContextFail 0 0 0 "http://x").2.countP isLaunch = 1 ∧
    (scrape_url envContextFail 0 0 0 "http://x").2.countP isCloseEvent = 1 ∧
    (scrape_url envContextFail 0 0 0 "http://x").2.countP isExplicitClose = 0 := by
  have h := session_creation_failure_fatal envContextFail 0 0 0 "http://x"
    "context creation failed" ⟨rfl, rfl, rfl⟩ rfl rfl
  exact ⟨h.1, h.2.1, h.2.2.1, h.2.2.2.1⟩

/-- Claim C8: every generated fingerprint has its user agent in the fixed
candidate list, its viewport width in the fixed width set and height in
the fixed height set, the two being drawn independently so that every
width/height pair is a possible output, and the locale applied to every
created session is the single fixed value "en-US". -/
theorem fingerprint_membership :
    (∀ i, get_random_user_agent i ∈ userAgents) ∧
    (∀ wi hi, (get_random_viewport wi hi).width ∈ widths ∧
              (get_random_viewport wi hi).height ∈ heights) ∧
    (∀ w h, w ∈ widths → h ∈ heights →
      ∃ wi hi, get_random_viewport wi hi = { width := w, height := h }) ∧
    (∀ env p ua vp s tr,
      stealth_context env p ua vp = (Except.ok s, tr) → s.locale = "en-US") := by
  refine ⟨?_, ?_, ?_, ?_⟩
  · intro i
    exact List.get_mem _ _ _
  · intro wi hi
    exact ⟨List.get_mem _ _ _, List.get_mem _ _ _⟩
  · intro w h hw hh
    simp [widths] at hw
    simp [heights] at hh
    rcases hw with rfl | rfl | rfl | rfl <;> rcases hh with rfl | rfl | rfl | rfl <;>
      first
      | exact ⟨0, 0, by decide⟩
      | exact ⟨0, 1, by decide⟩
      | exact ⟨0, 2, by decide⟩
      | exact ⟨0, 3, by decide⟩
      | exact ⟨1, 0, by decide⟩
      | exact ⟨1, 1, by decide⟩
      | exact ⟨1, 2, by decide⟩
      | exact ⟨1, 3, by decide⟩
      | exact ⟨2, 0, by decide⟩
      | exact ⟨2, 1, by decide⟩
      | exact ⟨2, 2, by decide⟩
      | exact ⟨2, 3, by decide⟩
      | exact ⟨3, 0, by decide⟩
      | exact ⟨3, 1, by decide⟩
      | exact ⟨3, 2, by decide⟩
      | exact ⟨3, 3, by decide⟩
  · intro env p ua vp s tr h
    rw [(stealth_ok_inv env p ua vp s tr h).1]

/-- Witness for C8 at concrete indices and a concretely built session. -/
theorem fingerprint_membership_witness :
    get_random_user_agent 0 ∈ userAgents ∧
    (get_random_viewport 1 2).width ∈ widths ∧
    (get_random_viewport 1 2).height ∈ heights ∧
    (Session.locale { proxyServer := proxy.server, userAgent := "ua",
                      viewport := { width := 1280, height := 720 },
                      locale := "en-US", javaScriptEnabled := true,
                      initScripts := [antiFingerprintScript] }) = "en-US" :=
  ⟨fingerprint_membership.1 0, (fingerprint_membership.2.1 1 2).1,
   (fingerprint_membership.2.1 1 2).2,
   fingerprint_membership.2.2.2 envOk proxy "ua" { width := 1280, height := 720 }
     _ _ rfl⟩

/-- Claim C10 (as amended for C10 this is the original claim): the
anti-detection init script is installed exactly once per created session,
it is part of the session before stealth_context returns, and in every
scrape_url trace the installation strictly precedes any navigation. -/
theorem init_script_once_before_nav :
    (∀ env p ua vp s tr, stealth_context env p ua vp = (Except.ok s, tr) →
      s.initScripts = [antiFingerprintScript] ∧ tr.countP isInstallScript = 1) ∧
    (∀ env i wi hi url u, Event.gotoCall u ∈ (scrape_url env i wi hi url).2 →
      ∃ t1 t2, (scrape_url env i wi hi url).2
          = t1 ++ Event.addInitScript antiFingerprintScript :: t2 ∧
        (∀ v, Event.gotoCall v ∉ t1) ∧
        (∀ x, Event.addInitScript x ∉ t1) ∧
        (∀ x, Event.addInitScript x ∉ t2)) := by
  constructor
  · intro env p ua vp s tr h
    obtain ⟨h1, h2⟩ := stealth_ok_inv env p ua vp s tr h
    subst h1
    subst h2
    exact ⟨rfl, by simp [isInstallScript, List.countP_cons]⟩
  · intro env i wi hi url u hmem
    rcases env with ⟨fp, au, sg, la, nc, np, ai, gt, ws, pc, bc⟩
    rcases fp with e | ⟨⟩
    · simp [scrape_url, rotate_ip] at hmem
    rcases au with e | ⟨⟩
    · simp [scrape_url, rotate_ip] at hmem
    rcases sg with e | ⟨⟩
    · simp [scrape_url, rotate_ip] at hmem
    rcases la with e | ⟨⟩
    · simp [scrape_url, rotate_ip, stealth_context] at hmem
    rcases nc with e | ⟨⟩
    · simp [scrape_url, rotate_ip, stealth_context] at hmem
    rcases np with e | ⟨⟩
    · simp [scrape_url, rotate_ip, stealth_context] at hmem
    rcases ai with e | ⟨⟩
    · simp [scrape_url, rotate_ip, stealth_context] at hmem
    rcases gt with e | ⟨⟩
    · rcases bc with e2 | ⟨⟩ <;>
        exact ⟨[Event.connOpen, Event.connClose, Event.launch,
                Event.newContext, Event.newPage],
               [Event.gotoCall url, Event.closeCall],
               rfl, by simp, by simp, by simp⟩
    rcases ws with e | ⟨⟩
    · rcases bc with e2 | ⟨⟩ <;>
        exact ⟨[Event.connOpen, Event.connClose, Event.launch,
                Event.newContext, Event.newPage],
               [Event.gotoCall url, Event.settle, Event.closeCall],
               rfl, by simp, by simp, by simp⟩
    rcases pc with e | c <;> rcases bc with e2 | ⟨⟩ <;>
      exact ⟨[Event.connOpen, Event.connClose, Event.launch,
              Event.newContext, Event.newPage],
             [Event.gotoCall url, Event.settle, Event.extract, Event.closeCall],
             rfl, by simp, by simp, by simp⟩

/-- Witness for C10 on a concretely constructed session. -/
theorem init_script_once_before_nav_witness :
    (Session.initScripts { proxyServer := proxy.server, userAgent := "ua",
                           viewport := { width := 1280, height := 720 },
                           locale := "en-US", javaScriptEnabled := true,
                           initScripts := [antiFingerprintScript] })
        = [antiFingerprintScript] ∧
    ([Event.launch, Event.newContext, Event.newPage,
      Event.addInitScript antiFingerprintScript] : List Event).countP isInstallScript = 1 :=
  init_script_once_before_nav.1 envOk proxy "ua" { width := 1280, height := 720 } _ _ rfl

/-- Claim C6 counterexample: content extraction (not navigation) raises,
yet scrape_url returns the in-band "Error:" string instead of propagating
the failure, so the in-band conversion is not reserved to
navigation-class errors. -/
theorem inband_error_without_nav_failure :
    envExtractFail.goto = Except.ok () ∧
    envExtractFail.pageContent = Except.error "page crashed" ∧
    (scrape_url envExtractFail 0 0 0 "http://x").1 = Except.ok "Error: page crashed" ∧
    hasErrorMark "Error: page crashed" = true :=
  ⟨rfl, rfl, rfl, rfl⟩

/-- Claim C6 as amended: scrape_url raises exactly when one of circuit
rotation (control connection, authentication, signal), browser launch,
context creation, page creation, init-script installation, or the final
browser close raises; and an error raised inside the navigation try-block
(navigation itself, the settle wait, or content extraction) is instead
converted into the in-band truncated "Error: <description>" result. -/
theorem error_propagation_policy (env : Env) (i wi hi : Nat) (url : String) :
    (raises (scrape_url env i wi hi url).1 = false ↔
      (env.fromPort = Except.ok () ∧ env.authenticate = Except.ok () ∧
       env.signalNewnym = Except.ok () ∧ env.launch = Except.ok () ∧
       env.newContext = Except.ok () ∧ env.newPage = Except.ok () ∧
       env.addInitScript = Except.ok () ∧ env.browserClose = Except.ok ())) ∧
    (∀ e, rotationOk env → sessionOk env → env.browserClose = Except.ok () →
      ((env.goto = Except.error e →
          (scrape_url env i wi hi url).1 =
            Except.ok (truncate2000 ("Error: " ++ e))) ∧
       (env.goto = Except.ok () → env.waitSettle = Except.error e →
          (scrape_url env i wi hi url).1 =
            Except.ok (truncate2000 ("Error: " ++ e))) ∧
       (env.goto = Except.ok () → env.waitSettle = Except.ok () →
          env.pageContent = Except.error e →
          (scrape_url env i wi hi url).1 =
            Except.ok (truncate2000 ("Error: " ++ e))))) := by
  constructor
  · rcases env with ⟨fp, au, sg, la, nc, np, ai, gt, ws, pc, bc⟩
    rcases fp with e | ⟨⟩
    · simp [scrape_url, rotate_ip, raises]
    rcases au with e | ⟨⟩
    · simp [scrape_url, rotate_ip, raises]
    rcases sg with e | ⟨⟩
    · simp [scrape_url, rotate_ip, raises]
    rcases la with e | ⟨⟩
    · simp [scrape_url, rotate_ip, stealth_context, raises]
    rcases nc with e | ⟨⟩
    · simp [scrape_url, rotate_ip, stealth_context, raises]
    rcases np with e | ⟨⟩
    · simp [scrape_url, rotate_ip, stealth_context, raises]
    rcases ai with e | ⟨⟩
    · simp [scrape_url, rotate_ip, stealth_context, raises]
    rcases bc with e | ⟨⟩
    · simp [scrape_url, rotate_ip, stealth_context, raises]
    · simp [scrape_url, rotate_ip, stealth_context, raises]
  · intro e hr hs hc
    have hrot := rotate_ip_ok env hr
    have hst := stealth_context_ok env proxy (get_random_user_agent i)
      (get_random_viewport wi hi) hs
    refine ⟨?_, ?_, ?_⟩
    · intro hg
      simp [scrape_url, hrot, hst, navPhase, hg, hc]
    · intro hg hw
      simp [scrape_url, hrot, hst, navPhase, hg, hw, hc]
    · intro hg hw hp
      simp [scrape_url, hrot, hst, navPhase, hg, hw, hp, hc]

/-- Witness for the amended C6 at the extraction-failure environment. -/
theorem error_propagation_policy_witness :
    (scrape_url envExtractFail 0 0 0 "http://x").1 =
      Except.ok (truncate2000 ("Error: " ++ "page crashed")) :=
  ((error_propagation_policy envExtractFail 0 0 0 "http://x").2 "page crashed"
    ⟨rfl, rfl, rfl⟩ ⟨rfl, rfl, rfl, rfl⟩ rfl).2.2 rfl rfl rfl

end Scraper
